import Mathlib

/-!
# Verification of the fake-newsstand OAuth 1.0a client

Shallow embedding of the OAuth 1.0a signing and credential-state-machine code in
`src/tumblr-api` (files `oauth.rs`, `client.rs`, `lib.rs`, `error.rs`), together
with theorems settling the specification claims about it.

Machine bytes and 32-bit words are modelled as `Nat` with explicit reduction
modulo `2^32` (resp. `2^64` for the SHA-1 length field) where the source wraps.
Strings are Lean `String`s; Rust's byte-wise `str` ordering coincides with
codepoint order on UTF-8, so characters are compared through `Char.toNat`.
-/

/-! ## UTF-8 byte encoding

`char::encode_utf8` in the source turns a character into its 1–4 UTF-8 bytes.
-/

/-- The UTF-8 encoding of one character, as a list of bytes (each `< 256`),
per the standard 1–4 byte scheme used by Rust's `char::encode_utf8`. -/
def utf8EncodeChar (c : Char) : List Nat :=
  let n := c.toNat
  if n < 128 then [n]
  else if n < 2048 then [192 + n / 64, 128 + n % 64]
  else if n < 65536 then [224 + n / 4096, 128 + (n / 64) % 64, 128 + n % 64]
  else [240 + n / 262144, 128 + (n / 4096) % 64, 128 + (n / 64) % 64, 128 + n % 64]

/-- The UTF-8 bytes of a whole string. -/
def utf8Bytes (s : String) : List Nat :=
  (s.data.map utf8EncodeChar).flatten

/-! ## The percent-encoder (`oauth_encode`, oauth.rs lines 17–35) -/

/-- The unreserved alphabet `[A-Za-z0-9-._~]` matched by the first arm of the
`match` in `oauth_encode`. -/
def isUnreserved (c : Char) : Bool :=
  (97 ≤ c.toNat && c.toNat ≤ 122) || (65 ≤ c.toNat && c.toNat ≤ 90) ||
    (48 ≤ c.toNat && c.toNat ≤ 57) || c == '-' || c == '.' || c == '_' || c == '~'

/-- Uppercase hexadecimal digit for `n < 16`. -/
def hexDigitChar (n : Nat) : Char :=
  if n < 10 then Char.ofNat (48 + n) else Char.ofNat (55 + n)

/-- Rust's `format!("{:X}", b)` for a byte `b < 256`: uppercase hexadecimal
WITHOUT zero padding, so bytes below `0x10` yield a single digit. -/
def fmtHexByte (b : Nat) : String :=
  if b < 16 then String.mk [hexDigitChar b]
  else String.mk [hexDigitChar (b / 16), hexDigitChar (b % 16)]

/-- One iteration of the `for ch in str.chars()` loop of `oauth_encode`:
unreserved characters pass through, every other character is UTF-8 encoded and
each byte is emitted as `%` followed by `format!("{:X}", byte)`. -/
def oauthEncodeChar (c : Char) : String :=
  if isUnreserved c then String.mk [c]
  else String.join ((utf8EncodeChar c).map fun b => "%" ++ fmtHexByte b)

/-- `oauth_encode` (oauth.rs lines 17–35). -/
def oauthEncode (s : String) : String :=
  String.join (s.data.map oauthEncodeChar)

/-! ## Byte-order string comparison and the sort comparator

Rust compares `String`s by their bytes; on UTF-8 this is exactly lexicographic
order on codepoints, so we compare characters through `Char.toNat`.
-/

/-- Lexicographic strict order on character lists by codepoint, modelling
Rust's byte-wise `str` ordering (UTF-8 preserves codepoint order). -/
def charListLt : List Char → List Char → Bool
  | _, [] => false
  | [], _ :: _ => true
  | a :: as, b :: bs =>
    if a.toNat < b.toNat then true
    else if b.toNat < a.toNat then false
    else charListLt as bs

/-- Strict order on strings: `a < b` in Rust's `String::cmp` sense. -/
def strLt (a b : String) : Bool :=
  charListLt a.data b.data

/-- The comparator passed to `params.sort_by` in `Request::sign`
(oauth.rs lines 120–123): compare first components, break ties by the second;
an element `x` may precede `y` iff `cmp x y ≠ Greater`. -/
def paramLe (x y : String × String) : Bool :=
  if strLt x.1 y.1 then true
  else if strLt y.1 x.1 then false
  else !(strLt y.2 x.2)

/-- `paramLe` as a relation, for use with `List.insertionSort`. -/
def paramRel (x y : String × String) : Prop :=
  paramLe x y = true

instance : DecidableRel paramRel := fun x y =>
  inferInstanceAs (Decidable (paramLe x y = true))

/-- The sort performed by `params.sort_by(..)` in `Request::sign`.  The Rust
sort is stable, but `paramLe`-equivalent pairs are equal (see the `IsAntisymm`
instance below), so the sorted permutation is unique and any correct sort,
here Mathlib's insertion sort, computes the same list the source does. -/
def sortParams (ps : List (String × String)) : List (String × String) :=
  List.insertionSort paramRel ps

/-- The normalized parameter string: sorted pairs joined as `k=v` with `&`
(oauth.rs lines 120–129). -/
def normalizedParamString (ps : List (String × String)) : String :=
  String.intercalate "&" ((sortParams ps).map fun p => p.1 ++ "=" ++ p.2)

/-! ## SHA-1, HMAC-SHA1 and base64

`Request::sign` uses the `sha1`, `hmac` and `base64` crates.  These external
dependencies are embedded here as executable pure functions over byte lists,
following FIPS 180-4 (SHA-1), FIPS 198-1 / RFC 2104 (HMAC) and RFC 4648
(base64 with the standard alphabet and `=` padding, as `base64::encode`).
32-bit words are `Nat`s kept below `2^32` by explicit reduction.
-/

/-- Reduction modulo `2^32`. -/
def w32 (n : Nat) : Nat := n % 4294967296

/-- Left rotation of a 32-bit word (input assumed `< 2^32`). -/
def rotl32 (b n : Nat) : Nat :=
  w32 ((n <<< b) ||| (n >>> (32 - b)))

/-- The SHA-1 round function `f_t`. -/
def sha1F (t b c d : Nat) : Nat :=
  if t < 20 then (b &&& c) ||| ((b ^^^ 4294967295) &&& d)
  else if t < 40 then b ^^^ c ^^^ d
  else if t < 60 then (b &&& c) ||| (b &&& d) ||| (c &&& d)
  else b ^^^ c ^^^ d

/-- The SHA-1 round constant `K_t`. -/
def sha1K (t : Nat) : Nat :=
  if t < 20 then 0x5A827999
  else if t < 40 then 0x6ED9EBA1
  else if t < 60 then 0x8F1BBCDC
  else 0xCA62C1D6

/-- The five-word SHA-1 working state. -/
structure Sha1State where
  a : Nat
  b : Nat
  c : Nat
  d : Nat
  e : Nat

/-- Big-endian bytes of `n`, `k` bytes wide. -/
def natToBytesBE : Nat → Nat → List Nat
  | 0, _ => []
  | k + 1, n => natToBytesBE k (n / 256) ++ [n % 256]

/-- Group bytes into big-endian 32-bit words (length assumed a multiple of 4). -/
def bytesToWordsBE : List Nat → List Nat
  | b0 :: b1 :: b2 :: b3 :: rest =>
      (((b0 * 256 + b1) * 256 + b2) * 256 + b3) :: bytesToWordsBE rest
  | _ => []

/-- Extend the 16 chunk words to 80 by appending
`rotl 1 (w[i-3] xor w[i-8] xor w[i-14] xor w[i-16])` `fuel` times. -/
def sha1Expand (ws : List Nat) : Nat → List Nat
  | 0 => ws
  | fuel + 1 =>
    let i := ws.length
    let w := rotl32 1 ((((ws.getD (i - 3) 0) ^^^ (ws.getD (i - 8) 0)) ^^^
      (ws.getD (i - 14) 0)) ^^^ (ws.getD (i - 16) 0))
    sha1Expand (ws ++ [w]) fuel

/-- One SHA-1 round: rotate the working state with word `w` at index `t`. -/
def sha1Step (t : Nat) (s : Sha1State) (w : Nat) : Sha1State :=
  { a := w32 (rotl32 5 s.a + sha1F t s.b s.c s.d + s.e + sha1K t + w),
    b := s.a, c := rotl32 30 s.b, d := s.c, e := s.d }

/-- Process one 64-byte chunk into the running hash state. -/
def sha1Compress (h : Sha1State) (chunk : List Nat) : Sha1State :=
  let ws := sha1Expand (bytesToWordsBE chunk) 64
  let s := ws.enum.foldl (fun s tw => sha1Step tw.1 s tw.2) h
  { a := w32 (h.a + s.a), b := w32 (h.b + s.b), c := w32 (h.c + s.c),
    d := w32 (h.d + s.d), e := w32 (h.e + s.e) }

/-- Split a byte list into 64-byte chunks. -/
def chunks64 (l : List Nat) : List (List Nat) :=
  if h : l = [] then [] else l.take 64 :: chunks64 (l.drop 64)
termination_by l.length
decreasing_by
  simp only [List.length_drop]
  have : 0 < l.length := List.length_pos.mpr h
  omega

/-- SHA-1 padding: append `0x80`, zeros to 56 mod 64, then the 64-bit
big-endian bit length. -/
def sha1Pad (msg : List Nat) : List Nat :=
  msg ++ [128] ++ List.replicate ((120 - (msg.length + 1) % 64) % 64) 0 ++
    natToBytesBE 8 ((msg.length * 8) % 18446744073709551616)

/-- SHA-1 of a byte list: the 20-byte digest. -/
def sha1 (msg : List Nat) : List Nat :=
  let fin := (chunks64 (sha1Pad msg)).foldl sha1Compress
    ⟨0x67452301, 0xEFCDAB89, 0x98BADCFE, 0x10325476, 0xC3D2E1F0⟩
  natToBytesBE 4 fin.a ++ natToBytesBE 4 fin.b ++ natToBytesBE 4 fin.c ++
    natToBytesBE 4 fin.d ++ natToBytesBE 4 fin.e

/-- HMAC-SHA1 (RFC 2104): block size 64; over-long keys are hashed first. -/
def hmacSha1 (key msg : List Nat) : List Nat :=
  let key := if key.length > 64 then sha1 key else key
  let key := key ++ List.replicate (64 - key.length) 0
  let ipad := key.map (· ^^^ 54)
  let opad := key.map (· ^^^ 92)
  sha1 (opad ++ sha1 (ipad ++ msg))

/-- The standard base64 alphabet. -/
def base64Chars : List Char :=
  "ABCDEFGHIJKLMNOPQRSTUVWXYZabcdefghijklmnopqrstuvwxyz0123456789+/".data

/-- The base64 digit for a 6-bit value. -/
def base64Digit (n : Nat) : Char :=
  base64Chars.getD n '='

/-- Base64 encoding with `=` padding, as `base64::encode` in the source. -/
def base64Encode : List Nat → String
  | [] => ""
  | [a] => String.mk [base64Digit (a / 4), base64Digit (a % 4 * 16)] ++ "=="
  | [a, b] =>
      String.mk [base64Digit (a / 4), base64Digit (a % 4 * 16 + b / 16),
        base64Digit (b % 16 * 4)] ++ "="
  | a :: b :: c :: rest =>
      String.mk [base64Digit (a / 4), base64Digit (a % 4 * 16 + b / 16),
        base64Digit (b % 16 * 4 + c / 64), base64Digit (c % 64)] ++ base64Encode rest

/-! ## ASCII case mapping

`Request::sign` calls `str::to_uppercase` on the method and `to_lowercase` on
the query-stripped URL.  Methods and URLs in the source are ASCII, so the
embedding maps ASCII letters and leaves every other character unchanged.
-/

/-- ASCII lower-casing of one character. -/
def asciiLowerChar (c : Char) : Char :=
  if 65 ≤ c.toNat ∧ c.toNat ≤ 90 then Char.ofNat (c.toNat + 32) else c

/-- ASCII upper-casing of one character. -/
def asciiUpperChar (c : Char) : Char :=
  if 97 ≤ c.toNat ∧ c.toNat ≤ 122 then Char.ofNat (c.toNat - 32) else c

/-- `str::to_lowercase` restricted to ASCII. -/
def strToLower (s : String) : String :=
  String.mk (s.data.map asciiLowerChar)

/-- `str::to_uppercase` restricted to ASCII. -/
def strToUpper (s : String) : String :=
  String.mk (s.data.map asciiUpperChar)

/-! ## The request URL and `Request::sign` (oauth.rs lines 68–161)

A `reqwest::Url` is modelled by its scheme, host, path and decoded query
pairs; `url.set_query(None)` followed by `url.as_str()` yields
`scheme://host path`.  The source generates the timestamp and nonce inside
`sign` (lines 85–91); the embedding exposes them as inputs, which is what
"holding nonce and timestamp fixed" means for the claims.
-/

/-- A parsed request URL as `reqwest::Url` presents it to `Request::sign`:
`query` is the list of decoded query pairs yielded by `url.query_pairs()`. -/
structure Url where
  scheme : String
  host : String
  path : String
  query : List (String × String)

/-- `url.as_str()` after `url.set_query(None)`. -/
def Url.noQueryStr (u : Url) : String :=
  u.scheme ++ "://" ++ u.host ++ u.path

/-- Everything `Request::sign` reads: the request's method and URL, the
client's consumer key and secret, the token/secret and extra OAuth parameters
passed by the caller, and the timestamp and nonce generated inside `sign`. -/
structure SignInput where
  method : String
  url : Url
  oauthConsumerKey : String
  oauthClientSecret : String
  oauthToken : Option String
  oauthTokenSecret : Option String
  otherParams : List (String × String)
  timestamp : String
  nonce : String

/-- What `Request::sign` produces: the signature base string, the emitted
`oauth_signature`, and the `Authorization` header value appended to the
request. -/
structure SignOutput where
  baseString : String
  oauthSignature : String
  authorizationHeader : String

/-- The OAuth protocol parameters of oauth.rs lines 93–107: the six standard
parameters chained with `other_params`, each key and value percent-encoded. -/
def signOauthParams (i : SignInput) : List (String × String) :=
  ([("oauth_consumer_key", i.oauthConsumerKey),
    ("oauth_token", i.oauthToken.getD ""),
    ("oauth_signature_method", "HMAC-SHA1"),
    ("oauth_timestamp", i.timestamp),
    ("oauth_nonce", i.nonce),
    ("oauth_version", "1.0")] ++ i.otherParams).map
    fun kv => (oauthEncode kv.1, oauthEncode kv.2)

/-- The combined parameter collection sorted by `Request::sign`: the encoded
query pairs (oauth.rs lines 78–81) extended with the encoded OAuth parameters
(line 114–118). -/
def signCombinedParams (i : SignInput) : List (String × String) :=
  (i.url.query.map fun kv => (oauthEncode kv.1, oauthEncode kv.2)) ++ signOauthParams i

/-- `Request::sign` (oauth.rs lines 68–161), with the internally generated
timestamp and nonce taken from the input. -/
def sign (i : SignInput) : SignOutput :=
  let method := strToUpper i.method
  let baseUri := strToLower i.url.noQueryStr
  let oauthParams := signOauthParams i
  let authorization := oauthParams.map fun kv => kv.1 ++ "=\"" ++ kv.2 ++ "\""
  let params := normalizedParamString (signCombinedParams i)
  let baseString :=
    oauthEncode method ++ "&" ++ oauthEncode baseUri ++ "&" ++ oauthEncode params
  let secret :=
    oauthEncode i.oauthClientSecret ++ "&" ++ oauthEncode (i.oauthTokenSecret.getD "")
  let oauthSignature :=
    oauthEncode (base64Encode (hmacSha1 (utf8Bytes secret) (utf8Bytes baseString)))
  { baseString := baseString,
    oauthSignature := oauthSignature,
    authorizationHeader := "OAuth " ++ String.intercalate ","
      (authorization ++ ["oauth_signature=\"" ++ oauthSignature ++ "\""]) }

/-- The signature base string as claim C3 words it: `UPPERCASE(method)`,
`percent_encode(base_uri)` and `percent_encode(normalized_parameter_string)`
joined by `&`, where only the scheme and host of the query-stripped URL are
lower-cased and the path keeps its case.  Stated from the claim's words, for
comparison with the source-derived `sign`. -/
def claimBaseString (i : SignInput) : String :=
  strToUpper i.method ++ "&" ++
    oauthEncode (strToLower i.url.scheme ++ "://" ++ strToLower i.url.host ++ i.url.path) ++
    "&" ++ oauthEncode (normalizedParamString (signCombinedParams i))

/-! ## The `SignRequest` trait impl and the handshake requests

`impl SignRequest for Request` (oauth.rs lines 193–204) is the five-argument
`sign` that `create_temporary_credentials` (lines 206–228), `verify_token`
(lines 258–284) and `Client::<Authenticated>::request` (lib.rs lines 47–53)
invoke on the built `reqwest::Request`.  Its body ignores every parameter and
returns `self` unchanged.
-/

/-- A built `reqwest::Request`: method, URL and headers. -/
structure HttpRequest where
  method : String
  url : String
  headers : List (String × String)

/-- `<reqwest::Request as SignRequest>::sign` (oauth.rs lines 193–204): the
body is just `self`, so the request comes back unchanged and no
`Authorization` header is attached. -/
def signRequest (req : HttpRequest) (oauthConsumerKey oauthClientSecret : String)
    (oauthToken oauthTokenSecret : Option String)
    (otherParams : List (String × String)) : HttpRequest :=
  req

/-! ## The credential state machine (client.rs) -/

/-- Form-decoded OAuth credentials (`OAuthCredentials`, oauth.rs lines 11–15). -/
structure OAuthCredentials where
  oauthToken : String
  oauthTokenSecret : String

/-- The `Unauthenticated` state (client.rs line 21). -/
inductive Unauthenticated : Type
  | mk

/-- The `Temporary` state holding temporary credentials (client.rs line 27). -/
structure Temporary where
  cred : OAuthCredentials

/-- The `Authenticated` state holding access credentials (client.rs line 24). -/
structure Authenticated where
  cred : OAuthCredentials

/-- A strong reference-counted handle, modelling `std::sync::Arc`:
`extraRefs` counts the strong references held elsewhere, so
`Arc::try_unwrap` succeeds exactly when `extraRefs = 0`. -/
structure Arc (α : Type) where
  value : α
  extraRefs : Nat

/-- `Arc::try_unwrap`: yields the value iff this is the only strong
reference, otherwise returns the untouched `Arc`. -/
def Arc.tryUnwrap {α : Type} (a : Arc α) : Except (Arc α) α :=
  if a.extraRefs = 0 then .ok a.value else .error a

/-- `ClientInner` (client.rs lines 31–37); the `reqwest::Client` transport
handle is out of scope and modelled as `Unit`. -/
structure ClientInner (S : Type) where
  httpClient : Unit
  oauthConsumerKey : String
  oauthClientSecret : String
  state : S

/-- `Client` (client.rs lines 39–42): an `Arc` around `ClientInner`. -/
structure Client (S : Type) where
  inner : Arc (ClientInner S)

/-- `Client::try_into_other_state` (client.rs lines 64–81): unwrap the `Arc`;
on success rebuild the client around the new state in a fresh `Arc`, on
failure hand back the original client together with the proposed state. -/
def Client.tryIntoOtherState {S U : Type} (c : Client S) (state : U) :
    Except (Client S × U) (Client U) :=
  match c.inner.tryUnwrap with
  | .ok inner =>
      .ok ⟨⟨⟨inner.httpClient, inner.oauthConsumerKey, inner.oauthClientSecret, state⟩, 0⟩⟩
  | .error inner => .error (⟨inner⟩, state)

/-- The transition tail of `Client::<Unauthenticated>::try_into_temporary`
(oauth.rs lines 230–238); `credentials` are the temporary credentials already
fetched by `create_temporary_credentials`. -/
def Client.tryIntoTemporary (c : Client Unauthenticated) (credentials : OAuthCredentials) :
    Except (Client Unauthenticated × OAuthCredentials) (Client Temporary) :=
  match c.tryIntoOtherState (Temporary.mk credentials) with
  | .ok c => .ok c
  | .error (client, state) => .error (client, state.cred)

/-- `Client::<Unauthenticated>::with_credentials` (client.rs lines 104–110). -/
def Client.withCredentials (c : Client Unauthenticated) (credentials : OAuthCredentials) :
    Except (Client Unauthenticated × OAuthCredentials) (Client Authenticated) :=
  match c.tryIntoOtherState (Authenticated.mk credentials) with
  | .ok c => .ok c
  | .error (client, state) => .error (client, state.cred)

/-- The transition tail of `Client::<Temporary>::verify_token` (oauth.rs lines
281–283); `credentials` are the access credentials parsed from the exchange
response. -/
def Client.verifyTokenTransition (c : Client Temporary) (credentials : OAuthCredentials) :
    Except (Client Temporary × OAuthCredentials) (Client Authenticated) :=
  match c.tryIntoOtherState (Authenticated.mk credentials) with
  | .ok c => .ok c
  | .error (client, state) => .error (client, state.cred)

/-- The request built and "signed" by `create_temporary_credentials`
(oauth.rs lines 206–228): a POST to the temporary-credential endpoint passed
through `<reqwest::Request as SignRequest>::sign` with no token, no token
secret and no extra parameters. -/
def createTemporaryCredentialsRequest (c : Client Unauthenticated) : HttpRequest :=
  signRequest
    ⟨"POST", "https://www.tumblr.com/oauth/request_token", []⟩
    c.inner.value.oauthConsumerKey c.inner.value.oauthClientSecret none none []

/-- The request built and "signed" by `verify_token` (oauth.rs lines 258–277):
a POST to the access-credential endpoint passed through
`<reqwest::Request as SignRequest>::sign` with the temporary token/secret and
`oauth_verifier` as an extra parameter. -/
def verifyTokenRequest (c : Client Temporary) (temporaryCredentials : OAuthCredentials)
    (oauthVerifier : String) : HttpRequest :=
  signRequest
    ⟨"POST", "https://www.tumblr.com/oauth/access_token", []⟩
    c.inner.value.oauthConsumerKey c.inner.value.oauthClientSecret
    (some temporaryCredentials.oauthToken) (some temporaryCredentials.oauthTokenSecret)
    [("oauth_verifier", oauthVerifier)]

/-! ## The API response envelope (lib.rs, error.rs) -/

/-- `ResponseMeta` (lib.rs lines 18–22). -/
structure ResponseMeta where
  status : Nat
  msg : String

/-- `Error` (error.rs lines 5–17); the payloads of the transport and
deserialization variants are foreign library types and are not needed by any
claim. -/
inductive Error : Type
  | Tumblr : ResponseMeta → Error
  | Http : Error
  | UrlParse : Error
  | DeserializeJson : Error
  | DeserializeForm : Error

/-- The deserialized envelope `Response<T>` (lib.rs lines 24–28): `response`
is `Option<T>` in the source. -/
structure EnvResponse (T : Type) where
  meta : ResponseMeta
  response : Option T

/-- The envelope-handling tail of `Client::<Authenticated>::request`
(lib.rs lines 58–64).  `none` models the panic of `res.response.unwrap()`
when `meta.status` is 200 but the payload is absent; `some` carries the value
the function returns. -/
def handleEnvelope {T : Type} (r : EnvResponse T) : Option (Except Error T) :=
  if r.meta.status == 200 then
    match r.response with
    | some payload => some (.ok payload)
    | none => none
  else some (.error (.Tumblr r.meta))

/-! ## Redirect-URL parsing (`parse_redirect_url`, oauth.rs lines 249–256)

`parse_redirect_url` parses with the external `url` crate and scans
`query_pairs()`.  The crate is modelled for hierarchical URLs
`scheme://host[/path][?query][#fragment]`: a string parses iff it has a valid
scheme followed by `://`; `query_pairs` form-urlencode-decodes the query
(split on `&`, empty pieces skipped, each piece split at the first `=`, `+`
and `%XX` decoded as UTF-8 bytes).  Non-hierarchical forms such as `mailto:`
are outside the model.
-/

/-- Split a character list at the first character satisfying `p`; the second
component starts with the matching character (or is empty). -/
def spanNot (p : Char → Bool) : List Char → List Char × List Char
  | [] => ([], [])
  | c :: cs =>
    if p c then ([], c :: cs)
    else
      let r := spanNot p cs
      (c :: r.1, r.2)

/-- ASCII letter. -/
def isAsciiAlpha (c : Char) : Bool :=
  (65 ≤ c.toNat && c.toNat ≤ 90) || (97 ≤ c.toNat && c.toNat ≤ 122)

/-- A character allowed after the first in a URL scheme. -/
def isSchemeChar (c : Char) : Bool :=
  isAsciiAlpha c || (48 ≤ c.toNat && c.toNat ≤ 57) || c == '+' || c == '-' || c == '.'

/-- A valid URL scheme: nonempty, letter first, then letters, digits, `+`,
`-` or `.`. -/
def schemeValid : List Char → Bool
  | [] => false
  | c :: cs => isAsciiAlpha c && cs.all isSchemeChar

/-- The value of an uppercase or lowercase hexadecimal digit. -/
def hexVal (c : Char) : Option Nat :=
  if 48 ≤ c.toNat ∧ c.toNat ≤ 57 then some (c.toNat - 48)
  else if 65 ≤ c.toNat ∧ c.toNat ≤ 70 then some (c.toNat - 55)
  else if 97 ≤ c.toNat ∧ c.toNat ≤ 102 then some (c.toNat - 87)
  else none

/-- Form-urlencoded byte decoding: `+` is a space, `%XX` is a byte, every
other character contributes its UTF-8 bytes (a `%` not followed by two hex
digits is literal). -/
def percentDecodeBytes : List Char → List Nat
  | [] => []
  | '%' :: h1 :: h2 :: rest =>
    match hexVal h1, hexVal h2 with
    | some a, some b => (16 * a + b) :: percentDecodeBytes rest
    | _, _ => utf8EncodeChar '%' ++ percentDecodeBytes (h1 :: h2 :: rest)
  | '+' :: rest => 32 :: percentDecodeBytes rest
  | c :: rest => utf8EncodeChar c ++ percentDecodeBytes rest

/-- Is `b` a UTF-8 continuation byte `0x80–0xBF`? -/
def isUtf8Cont (b : Nat) : Bool :=
  128 ≤ b && b ≤ 191

/-- Fuel-driven UTF-8 decoding; malformed sequences yield `U+FFFD` for one
byte, as lossy decoding does. -/
def utf8DecodeAux : Nat → List Nat → List Char
  | 0, _ => []
  | _, [] => []
  | fuel + 1, b :: rest =>
    if h1 : b < 128 then
      Char.ofNat b :: utf8DecodeAux fuel rest
    else
      match rest with
      | b2 :: r2 =>
        if 194 ≤ b ∧ b ≤ 223 ∧ isUtf8Cont b2 then
          Char.ofNat ((b - 192) * 64 + (b2 - 128)) :: utf8DecodeAux fuel r2
        else
          match r2 with
          | b3 :: r3 =>
            if 224 ≤ b ∧ b ≤ 239 ∧ isUtf8Cont b2 ∧ isUtf8Cont b3 ∧
                ((b - 224) * 4096 + (b2 - 128) * 64 + (b3 - 128) ≥ 2048) ∧
                ¬ (55296 ≤ (b - 224) * 4096 + (b2 - 128) * 64 + (b3 - 128) ∧
                   (b - 224) * 4096 + (b2 - 128) * 64 + (b3 - 128) ≤ 57343) then
              Char.ofNat ((b - 224) * 4096 + (b2 - 128) * 64 + (b3 - 128)) ::
                utf8DecodeAux fuel r3
            else
              match r3 with
              | b4 :: r4 =>
                if 240 ≤ b ∧ b ≤ 244 ∧ isUtf8Cont b2 ∧ isUtf8Cont b3 ∧ isUtf8Cont b4 ∧
                    (b - 240) * 262144 + (b2 - 128) * 4096 + (b3 - 128) * 64 + (b4 - 128) ≥ 65536 ∧
                    (b - 240) * 262144 + (b2 - 128) * 4096 + (b3 - 128) * 64 + (b4 - 128) ≤ 1114111 then
                  Char.ofNat ((b - 240) * 262144 + (b2 - 128) * 4096 + (b3 - 128) * 64 + (b4 - 128)) ::
                    utf8DecodeAux fuel r4
                else Char.ofNat 65533 :: utf8DecodeAux fuel rest
              | [] => Char.ofNat 65533 :: utf8DecodeAux fuel rest
          | [] => Char.ofNat 65533 :: utf8DecodeAux fuel rest
      | [] => [Char.ofNat 65533]

/-- Lossy UTF-8 decoding of a byte list to a string. -/
def utf8DecodeLossy (bs : List Nat) : String :=
  String.mk (utf8DecodeAux bs.length bs)

/-- Decode one form-urlencoded component. -/
def formDecode (cs : List Char) : String :=
  utf8DecodeLossy (percentDecodeBytes cs)

/-- Split a character list on a separator character. -/
def splitOnChar (sep : Char) : List Char → List (List Char)
  | [] => [[]]
  | c :: cs =>
    let r := splitOnChar sep cs
    if c == sep then [] :: r
    else
      match r with
      | [] => [[c]]
      | piece :: rest => (c :: piece) :: rest

/-- One `key=value` piece of a query string, split at the first `=`
(`value` empty when there is no `=`), both sides form-decoded. -/
def formPair (piece : List Char) : String × String :=
  match spanNot (fun c => c == '=') piece with
  | (k, '=' :: v) => (formDecode k, formDecode v)
  | (k, _) => (formDecode k, "")

/-- The pairs yielded by `url.query_pairs()` for a raw query string: split on
`&`, empty pieces skipped, each piece form-decoded. -/
def formPairs (q : List Char) : List (String × String) :=
  ((splitOnChar '&' q).filter fun piece => !piece.isEmpty).map formPair

/-- A URL as parsed by the model: scheme, host, path and the raw query
string (`none` when the URL has no `?`). -/
structure UrlQ where
  scheme : String
  host : String
  path : String
  query : Option String
deriving DecidableEq

/-- `url.query_pairs()` on a parsed URL. -/
def UrlQ.queryPairs (u : UrlQ) : List (String × String) :=
  match u.query with
  | none => []
  | some q => formPairs q.data

/-- `str::parse::<Url>` modelled for hierarchical URLs: a valid scheme,
`://`, then host up to `/`, `?` or `#`, path up to `?` or `#`, query up to
`#`; anything else fails. -/
def parseUrlModel (s : String) : Option UrlQ :=
  match spanNot (fun c => c == ':') s.data with
  | (sch, ':' :: '/' :: '/' :: rest) =>
    if schemeValid sch then
      let hostRest := spanNot (fun c => c == '/' || c == '?' || c == '#') rest
      let pathRest := spanNot (fun c => c == '?' || c == '#') hostRest.2
      let query : Option String :=
        match pathRest.2 with
        | '?' :: r4 => some (String.mk (spanNot (fun c => c == '#') r4).1)
        | _ => none
      some ⟨String.mk sch, String.mk hostRest.1, String.mk pathRest.1, query⟩
    else none
  | _ => none

/-- `Client::<Temporary>::parse_redirect_url` (oauth.rs lines 249–256):
parse the URL, then return the value of the first `oauth_verifier` query
pair, if any. -/
def parseRedirectUrl (url : String) : Option String :=
  match parseUrlModel url with
  | none => none
  | some parsed =>
    (parsed.queryPairs.find? fun p => p.1 == "oauth_verifier").map fun p => p.2

/-! ## Order properties of the sort comparator -/

/-- Characters with equal codepoints are equal. -/
theorem charToNat_inj {a b : Char} (h : a.toNat = b.toNat) : a = b := by
  apply Char.ext
  simp only [Char.toNat] at h
  exact UInt32.toNat.inj h

/-- `charListLt` is irreflexive. -/
theorem charListLt_irrefl : ∀ l, charListLt l l = false
  | [] => rfl
  | c :: cs => by simp [charListLt, charListLt_irrefl cs]

/-- `charListLt` is asymmetric. -/
theorem charListLt_asymm (a : List Char) :
    ∀ b, charListLt a b = true → charListLt b a = false := by
  induction a with
  | nil =>
    intro b h
    cases b with
    | nil => simp [charListLt] at h
    | cons c cs => simp [charListLt]
  | cons x xs ih =>
    intro b h
    cases b with
    | nil => simp [charListLt] at h
    | cons y ys =>
      simp only [charListLt] at h ⊢
      by_cases h1 : x.toNat < y.toNat
      · simp [h1, Nat.lt_asymm h1]
      · by_cases h2 : y.toNat < x.toNat
        · simp [h1, h2] at h
        · simp only [h1, h2, if_false] at h ⊢
          exact ih ys h

/-- Lists that are `charListLt`-incomparable are equal. -/
theorem charListLt_conn (a : List Char) :
    ∀ b, charListLt a b = false → charListLt b a = false → a = b := by
  induction a with
  | nil =>
    intro b h1 h2
    cases b with
    | nil => rfl
    | cons c cs => simp [charListLt] at h1
  | cons x xs ih =>
    intro b h1 h2
    cases b with
    | nil => simp [charListLt] at h2
    | cons y ys =>
      simp only [charListLt] at h1 h2
      by_cases hxy : x.toNat < y.toNat
      · simp [hxy] at h1
      · by_cases hyx : y.toNat < x.toNat
        · simp [hyx] at h2
        · have hx : x = y := charToNat_inj (by omega)
          subst hx
          simp only [hxy, hyx, if_false] at h1 h2
          rw [ih ys h1 h2]

/-- `charListLt` is transitive. -/
theorem charListLt_trans (a : List Char) :
    ∀ b c, charListLt a b = true → charListLt b c = true → charListLt a c = true := by
  induction a with
  | nil =>
    intro b c h1 h2
    cases c with
    | nil => cases b <;> simp [charListLt] at h1 h2
    | cons z zs => simp [charListLt]
  | cons x xs ih =>
    intro b c h1 h2
    cases b with
    | nil => simp [charListLt] at h1
    | cons y ys =>
      cases c with
      | nil => simp [charListLt] at h2
      | cons z zs =>
        simp only [charListLt] at h1 h2 ⊢
        by_cases hxy : x.toNat < y.toNat <;> by_cases hyz : y.toNat < z.toNat
        · simp [Nat.lt_trans hxy hyz]
        · by_cases hzy : z.toNat < y.toNat
          · simp [hyz, hzy] at h2
          · have : x.toNat < z.toNat := by omega
            simp [this]
        · by_cases hyx : y.toNat < x.toNat
          · simp [hxy, hyx] at h1
          · have : x.toNat < z.toNat := by omega
            simp [this]
        · by_cases hyx : y.toNat < x.toNat
          · simp [hxy, hyx] at h1
          · by_cases hzy : z.toNat < y.toNat
            · simp [hyz, hzy] at h2
            · simp only [hxy, hyx, if_false] at h1
              simp only [hyz, hzy, if_false] at h2
              have hxz : ¬ x.toNat < z.toNat := by omega
              have hzx : ¬ z.toNat < x.toNat := by omega
              simp only [hxz, hzx, if_false]
              exact ih ys zs h1 h2

/-- From `¬ b < a` and `¬ c < b` follows `¬ c < a` (the negation of
`charListLt` is transitive). -/
theorem charListLt_negTrans (a b c : List Char) (h1 : charListLt b a = false)
    (h2 : charListLt c b = false) : charListLt c a = false := by
  rcases Bool.eq_false_or_eq_true (charListLt c a) with hca | hca
  · rcases Bool.eq_false_or_eq_true (charListLt a b) with hab | hab
    · have := charListLt_trans c a b hca hab
      rw [this] at h2
      cases h2
    · have : a = b := charListLt_conn a b hab h1
      subst this
      rw [hca] at h2
      cases h2
  · exact hca

/-- Strings with equal character data are equal. -/
theorem stringDataInj {a b : String} (h : a.data = b.data) : a = b := by
  cases a
  cases b
  exact congrArg String.mk h

/-- `strLt` is irreflexive. -/
theorem strLt_irrefl (a : String) : strLt a a = false :=
  charListLt_irrefl a.data

/-- `strLt` is asymmetric. -/
theorem strLt_asymm {a b : String} (h : strLt a b = true) : strLt b a = false :=
  charListLt_asymm a.data b.data h

/-- Incomparable strings are equal. -/
theorem strLt_conn {a b : String} (h1 : strLt a b = false) (h2 : strLt b a = false) :
    a = b :=
  stringDataInj (charListLt_conn a.data b.data h1 h2)

/-- `strLt` is transitive. -/
theorem strLt_trans {a b c : String} (h1 : strLt a b = true) (h2 : strLt b c = true) :
    strLt a c = true :=
  charListLt_trans a.data b.data c.data h1 h2

/-- The negation of `strLt` is transitive. -/
theorem strLt_negTrans {a b c : String} (h1 : strLt b a = false)
    (h2 : strLt c b = false) : strLt c a = false :=
  charListLt_negTrans a.data b.data c.data h1 h2

instance : IsTrans (String × String) paramRel := by
  constructor
  intro x y z hxy hyz
  obtain ⟨kx, vx⟩ := x
  obtain ⟨ky, vy⟩ := y
  obtain ⟨kz, vz⟩ := z
  unfold paramRel paramLe at *
  simp only at hxy hyz ⊢
  rcases Bool.eq_false_or_eq_true (strLt kx ky) with hk1 | hk1
  · -- key of x strictly below key of y
    rcases Bool.eq_false_or_eq_true (strLt ky kz) with hk2 | hk2
    · simp [strLt_trans hk1 hk2]
    · rcases Bool.eq_false_or_eq_true (strLt kz ky) with hk2r | hk2r
      · simp [hk2, hk2r] at hyz
      · have hkeq : ky = kz := strLt_conn hk2 hk2r
        subst hkeq
        simp [hk1]
  · rcases Bool.eq_false_or_eq_true (strLt ky kx) with hk1r | hk1r
    · simp [hk1, hk1r] at hxy
    · -- keys of x and y equal
      have hkeq : kx = ky := strLt_conn hk1 hk1r
      subst hkeq
      simp only [hk1, hk1r, Bool.false_eq_true, if_false, Bool.not_eq_true'] at hxy
      rcases Bool.eq_false_or_eq_true (strLt kx kz) with hk2 | hk2
      · simp [hk2]
      · rcases Bool.eq_false_or_eq_true (strLt kz kx) with hk2r | hk2r
        · simp [hk2, hk2r] at hyz
        · -- keys of y and z equal too
          simp only [hk2, hk2r, Bool.false_eq_true, if_false, Bool.not_eq_true'] at hyz
          simp only [hk2, hk2r, Bool.false_eq_true, if_false, Bool.not_eq_true']
          exact strLt_negTrans hxy hyz

instance : IsTotal (String × String) paramRel := by
  constructor
  intro x y
  obtain ⟨kx, vx⟩ := x
  obtain ⟨ky, vy⟩ := y
  unfold paramRel paramLe
  simp only
  rcases Bool.eq_false_or_eq_true (strLt kx ky) with hk | hk
  · left
    simp [hk]
  · rcases Bool.eq_false_or_eq_true (strLt ky kx) with hkr | hkr
    · right
      simp [hkr]
    · rcases Bool.eq_false_or_eq_true (strLt vy vx) with hv | hv
      · right
        simp [hk, hkr, strLt_asymm hv]
      · left
        simp [hk, hkr, hv]

instance : IsAntisymm (String × String) paramRel := by
  constructor
  intro x y hxy hyx
  obtain ⟨kx, vx⟩ := x
  obtain ⟨ky, vy⟩ := y
  unfold paramRel paramLe at hxy hyx
  simp only at hxy hyx
  rcases Bool.eq_false_or_eq_true (strLt kx ky) with hk | hk
  · simp [strLt_asymm hk, hk] at hyx
  · rcases Bool.eq_false_or_eq_true (strLt ky kx) with hkr | hkr
    · simp [hk, hkr] at hxy
    · have hkeq : kx = ky := strLt_conn hk hkr
      subst hkeq
      simp only [hk, hkr, Bool.false_eq_true, if_false, Bool.not_eq_true'] at hxy hyx
      have hveq : vx = vy := strLt_conn hyx hxy
      rw [hveq]

/-! ## Claim theorems -/

/-- C1: the claim states that the POSTs of `create_temporary_credentials` and
`verify_token` carry an OAuth `Authorization` header with an `oauth_signature`
computed per the §4.3 algorithm.  The code contradicts this: the
`SignRequest::sign` those call sites invoke (oauth.rs lines 193–204) returns
the request unchanged, so both handshake requests go out with no
`Authorization` header at all. -/
theorem C1_handshake_requests_unsigned :
    (∀ (req : HttpRequest) (ck cs : String) (tok tokSec : Option String)
        (ps : List (String × String)), signRequest req ck cs tok tokSec ps = req) ∧
    (∀ c : Client Unauthenticated, (createTemporaryCredentialsRequest c).headers = []) ∧
    (∀ (c : Client Temporary) (tc : OAuthCredentials) (v : String),
        (verifyTokenRequest c tc v).headers = []) :=
  ⟨fun _ _ _ _ _ _ => rfl, fun _ => rfl, fun _ _ _ => rfl⟩

/-- C2: the claim states every non-unreserved byte becomes `%` plus exactly
two uppercase hex digits.  The code uses `format!("%{:X}", byte)` with no
zero padding, so the byte `0x0A` (`\n`) is emitted as `%A`, a single digit,
not the `%0A` the claim requires. -/
theorem C2_control_byte_single_hex_digit :
    oauthEncode "\n" = "%A" ∧ oauthEncode "\n" ≠ "%0A" := by
  constructor
  · rfl
  · decide

def c3Url : Url :=
  { scheme := "https", host := "example.com", path := "/API", query := [] }

def c3Input : SignInput :=
  { method := "post", url := c3Url, oauthConsumerKey := "k", oauthClientSecret := "s",
    oauthToken := none, oauthTokenSecret := none, otherParams := [],
    timestamp := "1", nonce := "n" }

set_option maxRecDepth 8000 in
/-- C3 counterexample: for a request to `https://example.com/API`, the base
string the code computes differs from the claim's formula, because
`Request::sign` lower-cases the whole query-stripped URL
(`url.as_str().to_lowercase()`, oauth.rs line 83) — the path becomes `/api` —
while the claim says only scheme and host are lower-cased and the path's case
is preserved. -/
theorem C3_counterexample :
    (sign c3Input).baseString ≠ claimBaseString c3Input := by
  decide

/-- C3 amended: the signature base string equals the percent-encoded
uppercased method, the percent-encoded base URI and the percent-encoded
normalized parameter string joined by literal `&`, where the base URI is the
query-stripped request URL lower-cased in its entirety — scheme, host and
path alike.  (The method segment is percent-encoded after uppercasing, the
identity for ordinary method names such as GET and POST.) -/
theorem C3_base_string_amended (i : SignInput) :
    (sign i).baseString =
      oauthEncode (strToUpper i.method) ++ "&" ++
        oauthEncode (strToLower i.url.noQueryStr) ++ "&" ++
        oauthEncode (normalizedParamString (signCombinedParams i)) :=
  rfl

/-- C4: a transition (`try_into_temporary` / `with_credentials` /
`verify_token`) attempted while another live holder references the client's
state fails instead of transitioning, and the error value carries back the
original un-transitioned client and the candidate credentials unchanged. -/
theorem C4_transition_requires_exclusive_ownership
    (cu : Client Unauthenticated) (ct : Client Temporary)
    (cred cred2 cred3 : OAuthCredentials)
    (hu : 0 < cu.inner.extraRefs) (ht : 0 < ct.inner.extraRefs) :
    cu.tryIntoTemporary cred = .error (cu, cred) ∧
    cu.withCredentials cred2 = .error (cu, cred2) ∧
    ct.verifyTokenTransition cred3 = .error (ct, cred3) := by
  have hu2 : cu.inner.extraRefs ≠ 0 := Nat.pos_iff_ne_zero.mp hu
  have ht2 : ct.inner.extraRefs ≠ 0 := Nat.pos_iff_ne_zero.mp ht
  refine ⟨?_, ?_, ?_⟩ <;>
    simp [Client.tryIntoTemporary, Client.withCredentials,
      Client.verifyTokenTransition, Client.tryIntoOtherState, Arc.tryUnwrap,
      hu2, ht2]

def c4Client : Client Unauthenticated :=
  ⟨⟨⟨(), "ck", "cs", Unauthenticated.mk⟩, 1⟩⟩

def c4Cred : OAuthCredentials := ⟨"tmp", "tmps"⟩

def c4TempClient : Client Temporary :=
  ⟨⟨⟨(), "ck", "cs", Temporary.mk ⟨"tmp", "tmps"⟩⟩, 1⟩⟩

/-- Witness for C4 at a client whose `Arc` has one extra holder. -/
theorem C4_transition_requires_exclusive_ownership_witness :
    0 < c4Client.inner.extraRefs ∧
    c4Client.tryIntoTemporary c4Cred = .error (c4Client, c4Cred) ∧
    c4TempClient.verifyTokenTransition c4Cred = .error (c4TempClient, c4Cred) :=
  have h := C4_transition_requires_exclusive_ownership c4Client c4TempClient
    c4Cred c4Cred c4Cred (by decide) (by decide)
  ⟨by decide, h.1, h.2.2⟩

/-- C5: the combined parameter list is sorted by encoded key with ties broken
by encoded value (the sorted list is `paramRel`-sorted and a permutation of
the input), and normalization is order-independent: permuting the input
collection never changes the normalized parameter string. -/
theorem C5_normalization_order_independent (ps qs : List (String × String))
    (h : ps.Perm qs) :
    List.Sorted paramRel (sortParams ps) ∧ (sortParams ps).Perm ps ∧
    normalizedParamString ps = normalizedParamString qs := by
  have hsorted := List.sorted_insertionSort paramRel ps
  have heq : sortParams ps = sortParams qs :=
    List.eq_of_perm_of_sorted
      ((List.perm_insertionSort paramRel ps).trans
        (h.trans (List.perm_insertionSort paramRel qs).symm))
      hsorted (List.sorted_insertionSort paramRel qs)
  refine ⟨hsorted, List.perm_insertionSort paramRel ps, ?_⟩
  rw [normalizedParamString, normalizedParamString, heq]

/-- Witness for C5 on a two-element collection and its transposition. -/
theorem C5_normalization_order_independent_witness :
    List.Perm [(("b", "1") : String × String), ("a", "2")] [("a", "2"), ("b", "1")] ∧
    normalizedParamString [("b", "1"), ("a", "2")] =
      normalizedParamString [("a", "2"), ("b", "1")] :=
  have hp : List.Perm [(("b", "1") : String × String), ("a", "2")]
      [("a", "2"), ("b", "1")] := List.Perm.swap ("a", "2") ("b", "1") []
  ⟨hp, (C5_normalization_order_independent _ _ hp).2.2⟩

/-- C6: the signing key is
`percent_encode(consumer_secret) & percent_encode(token_secret or "")`, and
the emitted `oauth_signature` is the percent-encoding of the base64 encoding
of the raw HMAC-SHA1 digest of the signature base string under that key. -/
theorem C6_signature_key_and_pipeline (i : SignInput) :
    (sign i).oauthSignature =
      oauthEncode (base64Encode (hmacSha1
        (utf8Bytes (oauthEncode i.oauthClientSecret ++ "&" ++
          oauthEncode (i.oauthTokenSecret.getD "")))
        (utf8Bytes (sign i).baseString))) :=
  rfl

/-- C7: with method, URL, parameters, nonce, timestamp, consumer secret and
token secret all fixed, signing is deterministic — equal inputs give
byte-identical signatures and base strings. -/
theorem C7_sign_deterministic (i j : SignInput)
    (h1 : i.method = j.method) (h2 : i.url = j.url)
    (h3 : i.oauthConsumerKey = j.oauthConsumerKey)
    (h4 : i.oauthClientSecret = j.oauthClientSecret)
    (h5 : i.oauthToken = j.oauthToken)
    (h6 : i.oauthTokenSecret = j.oauthTokenSecret)
    (h7 : i.otherParams = j.otherParams)
    (h8 : i.timestamp = j.timestamp) (h9 : i.nonce = j.nonce) :
    (sign i).oauthSignature = (sign j).oauthSignature ∧
    (sign i).baseString = (sign j).baseString := by
  obtain ⟨m, u, ck, cs, t, ts, op, tm, n⟩ := i
  obtain ⟨m2, u2, ck2, cs2, t2, ts2, op2, tm2, n2⟩ := j
  simp only at h1 h2 h3 h4 h5 h6 h7 h8 h9
  subst h1 h2 h3 h4 h5 h6 h7 h8 h9
  exact ⟨rfl, rfl⟩

def c7Input : SignInput :=
  { method := "get",
    url := { scheme := "https", host := "api.tumblr.com", path := "/v2/user/info",
             query := [("limit", "5")] },
    oauthConsumerKey := "key", oauthClientSecret := "secret",
    oauthToken := some "tok", oauthTokenSecret := some "toksec",
    otherParams := [], timestamp := "1318622958", nonce := "abc" }

/-- Witness for C7 at a concrete request signed twice. -/
theorem C7_sign_deterministic_witness :
    (sign c7Input).oauthSignature = (sign c7Input).oauthSignature ∧
    (sign c7Input).baseString = (sign c7Input).baseString :=
  C7_sign_deterministic c7Input c7Input rfl rfl rfl rfl rfl rfl rfl rfl rfl

/-- C8: a well-formed envelope with non-200 `meta.status` surfaces as
`Error::Tumblr` carrying the server-provided meta, never as success; with
status 200 and a present payload the call returns that payload. -/
theorem C8_envelope_error_surfaced (T : Type) (r : EnvResponse T) :
    (r.meta.status ≠ 200 → handleEnvelope r = some (.error (.Tumblr r.meta))) ∧
    (∀ p, r.meta.status = 200 → r.response = some p →
      handleEnvelope r = some (.ok p)) := by
  constructor
  · intro h
    simp [handleEnvelope, h]
  · intro p h1 h2
    simp [handleEnvelope, h1, h2]

/-- Witness for C8: a 404 envelope and a 200 envelope with payload. -/
theorem C8_envelope_error_surfaced_witness :
    handleEnvelope (⟨⟨404, "Not Found"⟩, none⟩ : EnvResponse Nat) =
      some (.error (.Tumblr ⟨404, "Not Found"⟩)) ∧
    handleEnvelope (⟨⟨200, "OK"⟩, some 7⟩ : EnvResponse Nat) = some (.ok 7) :=
  ⟨(C8_envelope_error_surfaced Nat _).1 (by decide),
   (C8_envelope_error_surfaced Nat _).2 7 rfl rfl⟩

/-- C9: `parse_redirect_url` returns the value of the `oauth_verifier` query
parameter when the URL parses and the parameter is present, and `none` when
the URL does not parse or the parameter is absent; in particular on the
spec's two example URLs. -/
theorem C9_extract_verifier :
    (∀ s : String,
      (parseUrlModel s = none → parseRedirectUrl s = none) ∧
      (∀ u, parseUrlModel s = some u →
        (u.queryPairs.find? (fun p => p.1 == "oauth_verifier") = none →
          parseRedirectUrl s = none) ∧
        (∀ kv, u.queryPairs.find? (fun p => p.1 == "oauth_verifier") = some kv →
          parseRedirectUrl s = some kv.2))) ∧
    parseRedirectUrl "https://cb.example/?oauth_verifier=abc123&x=1" = some "abc123" ∧
    parseRedirectUrl "https://cb.example/?x=1" = none := by
  refine ⟨?_, by rfl, by rfl⟩
  intro s
  constructor
  · intro h
    simp [parseRedirectUrl, h]
  · intro u hu
    constructor
    · intro hf
      simp [parseRedirectUrl, hu, hf]
    · intro kv hf
      simp [parseRedirectUrl, hu, hf]

set_option maxRecDepth 8000 in
/-- Witness for C9 at the spec's example URLs, discharging the parse and
lookup hypotheses concretely. -/
theorem C9_extract_verifier_witness :
    parseRedirectUrl "https://cb.example/?x=1" = none ∧
    parseRedirectUrl "https://cb.example/?oauth_verifier=abc123&x=1" = some "abc123" :=
  ⟨((C9_extract_verifier.1 "https://cb.example/?x=1").2
      ⟨"https", "cb.example", "/", some "x=1"⟩ (by decide)).1 (by decide),
   ((C9_extract_verifier.1 "https://cb.example/?oauth_verifier=abc123&x=1").2
      ⟨"https", "cb.example", "/", some "oauth_verifier=abc123&x=1"⟩ (by decide)).2
      ("oauth_verifier", "abc123") (by decide)⟩

/-- C10: an envelope with `meta.status = 200` but an absent `response`
payload makes `Client::<Authenticated>::request` panic
(`res.response.unwrap()` on `None`) — modelled by `handleEnvelope` returning
`none` — rather than return any `Ok` or `Err` value. -/
theorem C10_missing_payload_panics (T : Type) (r : EnvResponse T)
    (h200 : r.meta.status = 200) (hnone : r.response = none) :
    handleEnvelope r = none := by
  simp [handleEnvelope, h200, hnone]

/-- Witness for C10: a 200 envelope with no payload. -/
theorem C10_missing_payload_panics_witness :
    handleEnvelope (⟨⟨200, "OK"⟩, none⟩ : EnvResponse Nat) = none :=
  C10_missing_payload_panics Nat _ rfl rfl
